import Mathlib

/-
Verification of the mathjax-corrector repository (src/corrector.py) against
its natural-language specification.

The development shallowly embeds the Python source. The core is the method
MathJaxCorrector.«replace tag» (src/corrector.py lines 134-173), a two-stack
scan over the tag tokens of one fragment. Its helper tag classes (MathJaxTag,
HtmlTag, the function that yields tags, and the tag methods delete and
replace) are not part of src/, so their data is modelled from the spec
(section 3 Data Model); every branch condition and stack operation below is
transcribed from the source lines cited in the doc comments. A pop of an
empty Python list raises IndexError, so stack pops are modelled in an error
monad. String-rewriting side effects of the missing tag methods (delete,
replace) are modelled as an accumulated Edit list, following the spec data
model for Edits.
-/

namespace MathjaxCorrector

/-- Modelled from the spec: the four token kinds of the spec data model
(section 3). The source only distinguishes the two missing classes MathJaxTag
and HtmlTag; both math kinds are MathJaxTag instances and both html kinds are
HtmlTag instances. -/
inductive TokenKind where
  | mathDelimiterOpen
  | mathDelimiterClose
  | htmlOpen
  | htmlClose
deriving DecidableEq

/-- Transcribes isinstance(tag, MathJaxTag) at src/corrector.py line 142. -/
def TokenKind.isMathJax : TokenKind → Bool
  | TokenKind.mathDelimiterOpen => true
  | TokenKind.mathDelimiterClose => true
  | TokenKind.htmlOpen => false
  | TokenKind.htmlClose => false

/-- Transcribes isinstance(tag, HtmlTag) at src/corrector.py line 150: a tag
is either a MathJaxTag or an HtmlTag. -/
def TokenKind.isHtml (k : TokenKind) : Bool := !k.isMathJax

/-- Modelled from the spec: a character range in the fragment (section 3). -/
structure Span where
  lo : Nat
  hi : Nat
deriving DecidableEq

/-- Modelled from the spec: a classified token with its kind, span and the
flags closed and broken that the source reads on tag objects (lines 143, 151,
152, 159, 164). The tag classes carrying these attributes are absent from
src/. -/
structure Tag where
  kind : TokenKind
  closed : Bool
  broken : Bool
  span : Span
deriving DecidableEq

/-- Modelled from the spec: the planned mutations of the fragment text
(section 3). The source performs them eagerly through the missing tag methods
delete (line 154) and replace (line 166). -/
inductive EditAction where
  | delete
  | replaceWithLiteral
deriving DecidableEq

/-- Modelled from the spec: one planned mutation. -/
structure Edit where
  span : Span
  action : EditAction
deriving DecidableEq

/-- The exceptions the scan in src/corrector.py lines 134-173 can raise:
indexError for list.pop() on an empty list (lines 145, 157), and brokenHtml
for the Exception raised at line 171. -/
inductive PyErr where
  | indexError
  | brokenHtml
deriving DecidableEq

/-- The mutable state of the scan: the two stacks initialised empty at
src/corrector.py lines 137-138, plus the accumulated edits standing for the
string rewrites of the missing tag methods. -/
structure RState where
  mathjaxTagStack : List Tag
  htmlTagStack : List Tag
  edits : List Edit
deriving DecidableEq

/-- Both stacks start empty and no edit has been made (lines 135-138). -/
def initState : RState := RState.mk [] [] []

/-- One iteration of the loop at src/corrector.py lines 140-168, transcribed
branch for branch.

MathJaxTag branch (lines 142-148): when the stack is empty or its top is
closed the code pops the stack, which on an empty list is an IndexError;
otherwise it appends the tag.

HtmlTag branch (lines 150-168): when the html stack is empty or its top is
closed, the code deletes the tag from the html string when the tag itself is
flagged broken, then pops the html stack, an IndexError when it is empty.
Otherwise (line 159, reading the misspelling math_tag_stack as
mathjax_tag_stack): when the mathjax stack is empty or its top is closed the
tag is appended as valid; else the tag is flagged broken, replaced in the
html string, and appended. -/
def replaceTagStep (s : RState) (tag : Tag) : Except PyErr RState :=
  if tag.kind.isMathJax then
    match s.mathjaxTagStack with
    | [] => Except.error PyErr.indexError
    | top :: rest =>
      if top.closed then
        Except.ok (RState.mk rest s.htmlTagStack s.edits)
      else
        Except.ok (RState.mk (tag :: top :: rest) s.htmlTagStack s.edits)
  else
    match s.htmlTagStack with
    | [] => Except.error PyErr.indexError
    | top :: rest =>
      if top.closed then
        Except.ok (RState.mk s.mathjaxTagStack rest
          (if tag.broken then s.edits ++ [Edit.mk tag.span EditAction.delete]
           else s.edits))
      else
        match s.mathjaxTagStack with
        | [] =>
          Except.ok (RState.mk s.mathjaxTagStack (tag :: top :: rest) s.edits)
        | mtop :: _ =>
          if mtop.closed then
            Except.ok (RState.mk s.mathjaxTagStack (tag :: top :: rest) s.edits)
          else
            Except.ok (RState.mk s.mathjaxTagStack
              ({ tag with broken := true } :: top :: rest)
              (s.edits ++ [Edit.mk tag.span EditAction.replaceWithLiteral]))

/-- Runs the loop of lines 140-168 over the token sequence; an exception
raised inside the loop aborts it. -/
def runTags (s : RState) : List Tag → Except PyErr RState
  | [] => Except.ok s
  | t :: rest =>
    match replaceTagStep s t with
    | Except.error e => Except.error e
    | Except.ok s2 => runTags s2 rest

/-- The whole of MathJaxCorrector.«replace tag» for one fragment, given its
token sequence: run the loop, then lines 170-171, which raise the broken-html
Exception precisely when BOTH stacks are empty at the end of the scan, and
return normally otherwise. -/
def replaceTag (tags : List Tag) : Except PyErr RState :=
  match runTags initState tags with
  | Except.error e => Except.error e
  | Except.ok final =>
    if final.htmlTagStack.isEmpty && final.mathjaxTagStack.isEmpty then
      Except.error PyErr.brokenHtml
    else
      Except.ok final

/-- A math delimiter token as the scan first meets it: not closed, not
broken. -/
def mathOpenTok : Tag := Tag.mk TokenKind.mathDelimiterOpen false false (Span.mk 0 2)

/-- An html open-tag token as the scan first meets it. -/
def htmlOpenTok : Tag := Tag.mk TokenKind.htmlOpen false false (Span.mk 0 3)

/-- An html close-tag token as the scan first meets it. -/
def htmlCloseTok : Tag := Tag.mk TokenKind.htmlClose false false (Span.mk 0 4)

/-- The token sequence of the already-correct fragment of spec section 8
Example 2, with genuine nested tags and no math content. -/
def genuineFragment : List Tag :=
  [Tag.mk TokenKind.htmlOpen false false (Span.mk 0 3),
   Tag.mk TokenKind.htmlOpen false false (Span.mk 3 7),
   Tag.mk TokenKind.htmlClose false false (Span.mk 8 13),
   Tag.mk TokenKind.htmlClose false false (Span.mk 13 17)]

/-- The subtree-level errors of spec section 7 that a processor may raise
while a file is being processed. -/
inductive CorrectionError where
  | tokenizationError
  | unrepairableFragmentError
deriving DecidableEq

/-- A pathlib Path as the source uses it: a parent directory, a stem and an
extension, so that name = stem ++ extension (Path.name) and the Path
attribute suffix is the extension (Path.suffix). -/
structure PyPath where
  dir : String
  stem : String
  ext : String
deriving DecidableEq

/-- Path.name: the file name with its extension. -/
def PyPath.name (p : PyPath) : String := p.stem ++ p.ext

/-- Path.suffix: the extension alone. -/
def PyPath.suffix (p : PyPath) : String := p.ext

/-- The full path as a string, for comparisons of Path objects. -/
def pathStr (p : PyPath) : String := p.dir ++ "/" ++ p.name

/-- Transcribes src/corrector.py line 54:
outfile_name = (path.name + self.file_suffix + path.suffix). -/
def outfileName (path : PyPath) (file_suffix : String) : String :=
  path.name ++ file_suffix ++ path.suffix

/-- Transcribes src/corrector.py line 55: the output path joins the parent
directory of the current file with the computed output name. Line 56 of the
source misspells infile_path as inffile_path; the embedding reads lines 54-56
as deriving the output path of the current file path. -/
def outfilePath (path : PyPath) (file_suffix : String) : String :=
  path.dir ++ "/" ++ outfileName path file_suffix

/-- Transcribes the guard of src/corrector.py lines 62-63:
if (path != outfile_path) and self.delete_origin: os.remove(path). -/
def removesOrigin (path : PyPath) (file_suffix : String)
    (delete_origin : Bool) : Bool :=
  (pathStr path != outfilePath path file_suffix) && delete_origin

/-- The observable outcome of one FileManager.process run: which files had
their processor chain complete, which origin files were removed, and the
uncaught exception that aborted the run, when one was raised. -/
structure FMRun where
  processed : List String
  removed : List String
  failure : Option CorrectionError
deriving DecidableEq

/-- Transcribes the loop of FileManager.process, src/corrector.py lines
51-63. The body runs the processors on the current file (lines 58-60,
abstracted into one per-file call taking the input and output paths), then
removes the origin file under the guard of lines 62-63. There is no
try/except anywhere in the method, so an exception raised by a processor
propagates out of process and the remaining files are never reached. -/
def fmProcess (proc : String → String → Except CorrectionError Unit)
    (delete_origin : Bool) (file_suffix : String) :
    List PyPath → FMRun
  | [] => FMRun.mk [] [] none
  | f :: rest =>
    match proc (pathStr f) (outfilePath f file_suffix) with
    | Except.error e => FMRun.mk [] [] (some e)
    | Except.ok _ =>
      let r := fmProcess proc delete_origin file_suffix rest
      FMRun.mk (pathStr f :: r.processed)
        (if removesOrigin f file_suffix delete_origin then
          pathStr f :: r.removed
         else r.removed)
        r.failure

/-- The two file modes Corrector.process opens with at src/corrector.py
lines 80, 83 and 84: rb reads, wb writes and truncates at open. -/
inductive OpenMode where
  | rb
  | wb
deriving DecidableEq

/-- One call of the built-in open, recording its path and mode. -/
structure OpenEvent where
  path : String
  mode : OpenMode
deriving DecidableEq

/-- Opening a file with mode wb truncates it: its content becomes empty at
open time, before anything is written. -/
def openTruncate (fs : String → String) (p : String) : String → String :=
  fun q => if q == p then "" else fs q

/-- The state after the opening phase of Corrector.process: the open calls
made, the handle each of the attributes infile and outfile received, and the
file-system contents. Equal handle numbers mean the very same handle
object. -/
structure OpenPhase where
  opens : List OpenEvent
  infileHandle : Nat
  outfileHandle : Nat
  fs : String → String

/-- Transcribes src/corrector.py lines 79-87. When infile_path equals
outfile_path, one file is opened, with mode wb, and the single handle is
bound to both infile and outfile; otherwise infile opens rb and outfile
opens wb. A wb open truncates the opened file. -/
def correctorOpenPhase (fs : String → String) (infile_path outfile_path : String) :
    OpenPhase :=
  if infile_path == outfile_path then
    OpenPhase.mk [OpenEvent.mk infile_path OpenMode.wb] 0 0
      (openTruncate fs infile_path)
  else
    OpenPhase.mk
      [OpenEvent.mk infile_path OpenMode.rb, OpenEvent.mk outfile_path OpenMode.wb]
      0 1 (openTruncate fs outfile_path)

/-- Transcribes src/corrector.py lines 79-93: open the handles (lines 79-87),
run the internal processing step on what the input handle now holds (line
89), and on success write its output to the output path. An exception raised
by the processing step propagates after the files were already opened, so
the truncation of the wb open has happened either way. Returns the resulting
file-system contents and the uncaught error, when one was raised. -/
def correctorProcess (fs : String → String) (infile_path outfile_path : String)
    (proc : String → Except CorrectionError String) :
    (String → String) × Option CorrectionError :=
  let phase := correctorOpenPhase fs infile_path outfile_path
  match proc (phase.fs infile_path) with
  | Except.error e => (phase.fs, some e)
  | Except.ok out =>
    ((fun q => if q == outfile_path then out else phase.fs q), none)

/-- A matched file root/a.html used as a concrete input. -/
def fileA : PyPath := PyPath.mk "root" "a" ".html"

/-- A second matched file root/b.html used as a concrete input. -/
def fileB : PyPath := PyPath.mk "root" "b" ".html"

/-- Claim C1. The claim says reconciliation succeeds, with no error, exactly
when both stacks are empty at end of scan, and raises
UnrepairableFragmentError exactly when a stack ends nonempty while the Edit
list is empty. The code at src/corrector.py lines 170-171 inverts the check:
it raises its broken-html Exception precisely when BOTH stacks end empty. On
the empty fragment both stacks end empty and no edit was produced, yet the
scan raises. -/
theorem c1_success_check_inverted :
    replaceTag [] = Except.error PyErr.brokenHtml := rfl

/-- Claim C2. The claim says a MathDelimiterOpen token pops mathStack only
when the stack is nonempty with an unclosed top, and is pushed in every
other case, so that no pop ever meets an empty stack. The code at
src/corrector.py lines 142-148 has the two branches swapped: it pops when
the stack is empty or its top is closed, so the very first math token of any
fragment pops the empty stack, an IndexError. -/
theorem c2_math_branch_pops_empty_stack :
    replaceTag [mathOpenTok] = Except.error PyErr.indexError := rfl

/-- Claim C3. The claim says an HtmlClose token pops the innermost open
entry of htmlStack and, when the popped token is broken, emits Delete for
both the close span and the matching open span. The code at src/corrector.py
lines 150-157 reaches its pop whenever htmlStack is empty or its top is
closed, so an HtmlClose met with an empty htmlStack pops the empty list, an
IndexError; and even when the pop is possible the code tests the broken flag
of the scanned token, not of the popped one, and deletes one span only. -/
theorem c3_html_close_pops_empty_stack :
    replaceTag [htmlCloseTok] = Except.error PyErr.indexError := rfl

/-- Claim C4. The claim says an HtmlOpen token scanned while mathStack is
nonempty is marked broken, gets a ReplaceWithLiteral edit and is pushed, and
one scanned with mathStack empty is pushed unmarked with no edit. The code
at src/corrector.py lines 150-168 never looks at the open or close kind of
an html token: it picks the branch from the state of htmlStack alone, so an
HtmlOpen met while htmlStack is empty falls into the closing branch and pops
the empty stack, an IndexError, whatever mathStack holds. -/
theorem c4_html_open_in_math_crashes :
    replaceTagStep (RState.mk [mathOpenTok] [] []) htmlOpenTok
      = Except.error PyErr.indexError := rfl

/-- Claim C8. The claim says a fragment that is already correct is a fixed
point: the repair produces an empty Edit list on it. On the already-correct
fragment of spec section 8 Example 2 the code raises an IndexError at the
very first token, because the html branch of src/corrector.py lines 150-157
pops the empty htmlStack; the scan never returns an Edit list at all, so no
fragment is a fixed point of the code. -/
theorem c8_corrected_fragment_still_raises :
    replaceTag genuineFragment = Except.error PyErr.indexError := rfl

/-- Claim C5. The claim says a file whose processing raises
TokenizationError or UnrepairableFragmentError is reported and skipped and
the run continues with the next matched file. FileManager.process at
src/corrector.py lines 51-63 has no try/except: when processing of the first
of two files raises, the exception propagates, the run ends with no file
processed, and the second file is never reached. -/
theorem c5_error_aborts_run :
    fmProcess
      (fun i _ =>
        if i == pathStr fileA then
          Except.error CorrectionError.tokenizationError
        else Except.ok Unit.unit)
      false "fixed" [fileA, fileB]
      = FMRun.mk [] [] (some CorrectionError.tokenizationError) := rfl

/-- Claim C6. The claim says a file whose correction raises a subtree-level
error keeps its content: no output is written and, in in-place mode, the
original file is unchanged. Corrector.process at src/corrector.py lines
79-87 opens the in-place file with mode wb, which truncates it before the
processing step runs, so after a failed call the file content is empty, not
the original text. -/
theorem c6_inplace_error_truncates :
    (correctorProcess (fun _ => "orig") "root/a.html" "root/a.html"
        (fun _ => Except.error CorrectionError.tokenizationError)).2
      = some CorrectionError.tokenizationError ∧
    (correctorProcess (fun _ => "orig") "root/a.html" "root/a.html"
        (fun _ => Except.error CorrectionError.tokenizationError)).1 "root/a.html"
      = "" ∧
    ("" : String) ≠ "orig" := by
  refine ⟨rfl, rfl, by decide⟩

/-- Claim C7. The claim, like the docstring of FileManager, says the derived
output name is the stem, then the configured suffix, then the extension,
with the extension appearing once. Line 54 of src/corrector.py instead
concatenates path.name (which already ends in the extension), the suffix and
path.suffix, so for a.html with suffix fixed the output name is
a.htmlfixed.html: the extension appears twice and the suffix sits after the
first copy, not before the extension. -/
theorem c7_extension_duplicated :
    outfileName fileA "fixed" = "a.htmlfixed.html" ∧
      outfileName fileA "fixed" ≠ fileA.stem ++ "fixed" ++ fileA.ext := by
  refine ⟨rfl, by decide⟩

/-- Claim C9. In every run of FileManager.process, a removed origin file
presupposes delete_origin set and an output path that differs from the
origin path: the guard at src/corrector.py lines 62-63 is
(path != outfile_path) and self.delete_origin. -/
theorem c9_remove_guard (proc : String → String → Except CorrectionError Unit)
    (delete_origin : Bool) (file_suffix : String) (files : List PyPath)
    (f : String)
    (h : f ∈ (fmProcess proc delete_origin file_suffix files).removed) :
    delete_origin = true ∧
      ∃ p, p ∈ files ∧ f = pathStr p ∧ pathStr p ≠ outfilePath p file_suffix := by
  induction files with
  | nil => simp [fmProcess] at h
  | cons a rest ih =>
    rw [fmProcess] at h
    cases hp : proc (pathStr a) (outfilePath a file_suffix) with
    | error e => rw [hp] at h; simp at h
    | ok u =>
      rw [hp] at h
      dsimp only at h
      by_cases hg : removesOrigin a file_suffix delete_origin = true
      · rw [if_pos hg] at h
        have hg2 : pathStr a ≠ outfilePath a file_suffix ∧ delete_origin = true := by
          have := hg
          unfold removesOrigin at this
          rcases Bool.and_eq_true_iff.mp this with ⟨h1, h2⟩
          exact ⟨bne_iff_ne.mp h1, h2⟩
        rcases List.mem_cons.mp h with he | hm
        · exact ⟨hg2.2, a, List.mem_cons_self a rest, he, hg2.1⟩
        · rcases ih hm with ⟨hd, p, hp1, hp2, hp3⟩
          exact ⟨hd, p, List.mem_cons_of_mem a hp1, hp2, hp3⟩
      · rw [if_neg hg] at h
        rcases ih h with ⟨hd, p, hp1, hp2, hp3⟩
        exact ⟨hd, p, List.mem_cons_of_mem a hp1, hp2, hp3⟩

/-- Witness for claim C9: a concrete run with delete_origin set and the
suffix fixed removes root/a.html, whose output path indeed differs. -/
theorem c9_remove_guard_witness :
    true = true ∧
      ∃ p, p ∈ [fileA] ∧ pathStr fileA = pathStr p ∧
        pathStr p ≠ outfilePath p "fixed" :=
  c9_remove_guard (fun _ _ => Except.ok Unit.unit) true "fixed" [fileA]
    (pathStr fileA) (by decide)

/-- Claim C10. When Corrector.process is called with equal input and output
paths, lines 79-81 of src/corrector.py make exactly one open call, with mode
wb, bind the one handle to both the infile and outfile attributes, and the
wb open truncates the file before any read happens. -/
theorem c10_inplace_single_wb_handle (fs : String → String) (p : String) :
    (correctorOpenPhase fs p p).opens = [OpenEvent.mk p OpenMode.wb] ∧
    (correctorOpenPhase fs p p).infileHandle
      = (correctorOpenPhase fs p p).outfileHandle ∧
    (correctorOpenPhase fs p p).fs p = "" := by
  refine ⟨?_, ?_, ?_⟩ <;> simp [correctorOpenPhase, openTruncate]

end MathjaxCorrector
